import Mathlib

/-!
xlsx-converter: sheet selection, row slicing and CSV output.

A shallow embedding of `main.go`.  The command-line options live in a record that the
functions read (and, for `EndLine`, write), so every function takes the record explicitly
and `setRows` returns the updated record next to its result.

* Go `int` is the 64-bit signed integer (its size on 64-bit platforms): values are `Int`,
  and every `+` / `-` of the source is wrapped by `wrapInt` (two's complement wrap-around,
  as the Go language defines it for signed integers).
* A Go pointer is an `Option` (`none` is `nil`).
* A Go function returning `(value, error)` returns `GoResult.ret value err`; a run-time
  panic (index or slice bounds out of range, nil dereference) is `GoResult.panic`.
* A Go slice is the `List` of its elements; a `nil` slice is `[]`.
-/

namespace XlsxConverter

/-! ## Machine integers -/

/-- Smallest value of Go's `int` (64-bit). -/
def intMin : Int := -(2 ^ 63)

/-- Largest value of Go's `int` (64-bit). -/
def intMax : Int := 2 ^ 63 - 1

/-- Two's complement wrap-around of a mathematical result into the range of `int`. -/
def wrapInt (x : Int) : Int := (x + 2 ^ 63) % 2 ^ 64 - 2 ^ 63

/-- The integer is a value of Go's `int`. -/
def isInt (x : Int) : Prop := intMin ≤ x ∧ x ≤ intMax

instance (x : Int) : Decidable (isInt x) := by
  unfold isInt; exact inferInstance

/-! ## Data model -/

/-- Pointer to a value: `none` is the nil pointer. -/
abbrev Ptr (α : Type) : Type := Option α

/-- Outcome of a Go function with results `(value, error)`: it returns both results
(`err = none` is the nil error), or the run-time panics. -/
inductive GoResult (α : Type) where
  | ret (value : α) (err : Option String)
  | panic
deriving DecidableEq, Repr

/-- The option record `Options` of the source, one field per struct field. -/
structure Options where
  OutputFile : String
  SheetIndex : Int
  SheetName : String
  HeaderLine : Int
  StartLine : Int
  EndLine : Int
  Limit : Int
deriving DecidableEq, Repr

/-- Every integer field holds a value of Go's `int`. -/
def Options.inRange (o : Options) : Prop :=
  isInt o.SheetIndex ∧ isInt o.HeaderLine ∧ isInt o.StartLine ∧ isInt o.EndLine ∧ isInt o.Limit

instance (o : Options) : Decidable o.inRange := by
  unfold Options.inRange; exact inferInstance

/-- The record as `init` leaves it when no flag is given: `&Options{}` followed by the
defaults of the flag declarations (`EndLine` has no flag and keeps its zero value). -/
def defaultOptions : Options :=
  { OutputFile := "", SheetIndex := 0, SheetName := "", HeaderLine := -1,
    StartLine := -1, EndLine := 0, Limit := 0 }

/-- The fields of `xlsx.File` the program reads: the map from sheet name to sheet pointer
(as its lookup function, `none` when the key is absent) and the slice of sheet pointers. -/
structure File (σ : Type) where
  Sheet : String → Option (Ptr σ)
  Sheets : List (Ptr σ)

/-- The field of `xlsx.Sheet` the program reads: the slice of row pointers
(`ρ` is the type of a row pointer). -/
structure Sheet (ρ : Type) where
  Rows : List ρ
deriving DecidableEq, Repr

/-- The field of `xlsx.Row` the program reads: the slice of cell pointers
(`κ` is the type of a cell pointer). -/
structure Row (κ : Type) where
  Cells : List κ
deriving DecidableEq, Repr

/-! ## Go primitives -/

/-- Formatting verb `%d` applied to an `int`. -/
def fmtD (i : Int) : String := toString i

/-- Index expression `xs[i]`: `none` when the index is out of range (the run-time panics). -/
def index {α : Type} (xs : List α) (i : Int) : Option α :=
  if 0 ≤ i then xs.get? i.toNat else none

/-- Slice expression `xs[lo:hi]`: `none` when the bounds are out of range (the run-time
panics).  Both uses in the source have `hi` at most `len(xs)` whenever the bounds are in
order, so the capacity of the slice plays no role. -/
def slice {α : Type} (xs : List α) (lo hi : Int) : Option (List α) :=
  if 0 ≤ lo ∧ lo ≤ hi ∧ hi ≤ (xs.length : Int) then
    some ((xs.drop lo.toNat).take (hi - lo).toNat)
  else none

/-! ## setSheet -/

/-- Function `setSheet`: select the worksheet by name when `SheetName` is set, by index
otherwise. -/
def setSheet {σ : Type} (options : Options) (xlFile : File σ) : GoResult (Ptr σ) :=
  let sheet : Ptr σ := none
  if options.SheetName ≠ "" then
    match xlFile.Sheet options.SheetName with
    | none =>
      .ret sheet (some ("no sheet named \"" ++ options.SheetName ++ "\" available"))
    | some s => .ret s none
  else
    let numSheets : Int := xlFile.Sheets.length
    if numSheets = 0 then
      .ret sheet (some "this XLSX file contains no sheets")
    else if options.SheetIndex ≥ numSheets then
      .ret sheet (some ("no sheet " ++ fmtD options.SheetIndex
        ++ " available, please select a sheet between 0 and " ++ fmtD (wrapInt (numSheets - 1))))
    else
      match index xlFile.Sheets options.SheetIndex with
      | none => .panic
      | some s => .ret s none

/-! ## setRows -/

/-- Function `setRows`: the rows to print.  The first component is the option record after
the call (`EndLine` is assigned on the way), the second the returned `(rows, error)`.
A nil `sheet` panics at the first read of `sheet.Rows`, on either path.
`append(sheet.Rows[h:h+1], rows...)` is the header row followed by the elements of `rows`:
when the capacity suffices the elements are moved inside the array that backs `sheet.Rows`,
by a move that is safe for overlapping ranges, so the values appended are those `rows` held
before the call; `sheet.Rows` is not read afterwards. -/
def setRows {ρ : Type} (options : Options) (sheet : Ptr (Sheet ρ)) :
    Options × GoResult (List ρ) :=
  match sheet with
  | none => (options, .panic)
  | some sheet =>
    let rows : List ρ := []
    if options.StartLine > -1 then
      let numRows : Int := sheet.Rows.length
      if numRows = 0 then
        (options, .ret rows (some "this worksheet contains no rows"))
      else if options.StartLine ≥ numRows then
        (options, .ret rows (some ("no row " ++ fmtD options.HeaderLine
          ++ " available, please select a row between 0 and " ++ fmtD (wrapInt (numRows - 1)))))
      else
        let options : Options :=
          if options.Limit > 0 then
            { options with EndLine := wrapInt (options.StartLine + options.Limit) }
          else options
        let options : Options :=
          if options.Limit = 0 ∨ options.EndLine > numRows then
            { options with EndLine := numRows }
          else options
        match slice sheet.Rows options.StartLine options.EndLine with
        | none => (options, .panic)
        | some rows =>
          if options.HeaderLine > -1 then
            if options.HeaderLine ≥ numRows then
              (options, .ret rows (some ("no row " ++ fmtD options.HeaderLine
                ++ " available, please select a row between 0 and "
                ++ fmtD (wrapInt (numRows - 1)))))
            else
              match slice sheet.Rows options.HeaderLine (wrapInt (options.HeaderLine + 1)) with
              | none => (options, .panic)
              | some header => (options, .ret (header ++ rows) none)
          else (options, .ret rows none)
    else (options, .ret sheet.Rows none)

/-! ## outputCsv -/

/-- Function `outputCsv`.  The CSV writer is the list of records handed to its `Write`
method so far; `cellString` is the method `String` of the library's cell type. -/
def outputCsv {κ : Type} (cellString : κ → String) (csvWriter : List (List String))
    (rows : List (Ptr (Row κ))) : List (List String) :=
  rows.foldl
    (fun csvWriter row =>
      let record : List String := []
      match row with
      | some row =>
        let record := row.Cells.foldl (fun record cell => record ++ [cellString cell]) record
        csvWriter ++ [record]
      | none => csvWriter)
    csvWriter

/-! ## main -/

/-- Value of type `io.Writer` that `main` can hold: standard output, or the file created
at a path. -/
inductive Writer where
  | stdout
  | file (path : String)
deriving DecidableEq, Repr

/-- How `main` ends: `log.Fatal` prints the error and exits with a non-zero status, the
run-time panics, or the CSV encoder is built on `writer` (`csv.NewWriter(writer)`) and
receives `records` through `outputCsv`. -/
inductive MainResult where
  | fatal (err : String)
  | panic
  | csv (writer : Ptr Writer) (records : List (List String))
deriving DecidableEq, Repr

/-- Function `main`.  `openFile` is the result of `xlsx.OpenFile(flag.Arg(0))` and
`osCreate path` the result `(file, error)` of `os.Create(path)`.  The variable `writer`
declared at function level (`var writer io.Writer`, nil) is the one `csv.NewWriter` reads;
inside the `if` block `writer, err := os.Create(...)` declares new variables local to the
block, so the block leaves the function-level `writer` as it was. -/
def main {κ : Type} (options : Options) (cellString : κ → String)
    (openFile : Except String (File (Sheet (Ptr (Row κ)))))
    (osCreate : String → Ptr Writer × Option String) : MainResult :=
  match openFile with
  | .error err => .fatal err
  | .ok xlFile =>
    match setSheet options xlFile with
    | .panic => .panic
    | .ret _ (some err) => .fatal err
    | .ret sheet none =>
      match setRows options sheet with
      | (_, .panic) => .panic
      | (_, .ret _ (some err)) => .fatal err
      | (options, .ret rows none) =>
        let writer : Ptr Writer := none
        let encode (writer : Ptr Writer) : MainResult :=
          .csv writer (outputCsv cellString [] rows)
        if options.OutputFile ≠ "" then
          match osCreate options.OutputFile with
          | (_, some err) => .fatal err
          | (_, none) => encode writer
        else
          encode (some Writer.stdout)

/-- Function `os.Create` on a file system where every path can be created. -/
def osCreateOk (path : String) : Ptr Writer × Option String := (some (Writer.file path), none)

/-! ## Machine-integer and slice lemmas -/

theorem wrapInt_of_isInt (x : Int) (h : isInt x) : wrapInt x = x := by
  unfold isInt intMin intMax at h
  unfold wrapInt
  omega

theorem slice_eq_some {α : Type} (xs : List α) (lo hi : Int)
    (h0 : 0 ≤ lo) (h1 : lo ≤ hi) (h2 : hi ≤ (xs.length : Int)) :
    slice xs lo hi = some ((xs.drop lo.toNat).take (hi - lo).toNat) := by
  unfold slice
  rw [if_pos ⟨h0, h1, h2⟩]

theorem slice_eq_none {α : Type} (xs : List α) (lo hi : Int) (h : hi < lo) :
    slice xs lo hi = none := by
  unfold slice
  rw [if_neg]
  omega

theorem slice_length {α : Type} (xs : List α) (lo hi : Int) (ys : List α)
    (h : slice xs lo hi = some ys) : (ys.length : Int) = hi - lo := by
  unfold slice at h
  split at h
  · rename_i hb
    obtain ⟨h0, h1, h2⟩ := hb
    injection h with h
    subst h
    simp only [List.length_take, List.length_drop]
    omega
  · exact absurd h (by simp)

/-- Slice of one element `xs[i:i+1]` for an index in range. -/
theorem slice_one {α : Type} (xs : List α) (i : Int) (h0 : 0 ≤ i) (h1 : i < (xs.length : Int)) :
    slice xs i (i + 1) = some (xs.get? i.toNat).toList := by
  rw [slice_eq_some xs i (i + 1) h0 (by omega) (by omega)]
  have hlt : i.toNat < xs.length := by omega
  have : (i + 1 - i).toNat = 1 := by
    have : i + 1 - i = 1 := by ring
    rw [this]; rfl
  rw [this, List.get?_eq_get hlt, List.drop_eq_getElem_cons hlt]
  rfl

/-! ## outputCsv lemmas -/

theorem record_foldl {κ : Type} (cellString : κ → String) (cells : List κ)
    (record : List String) :
    cells.foldl (fun record cell => record ++ [cellString cell]) record
      = record ++ cells.map cellString := by
  induction cells generalizing record with
  | nil => simp
  | cons c cs ih => simp [ih]

/-! ## Sheet selection -/

/-- Supporting lemma: with no sheet name and an index inside `0 .. k-1`, `setSheet`
returns the sheet pointer at that index and a nil error. -/
theorem setSheet_index_in_range {σ : Type} (o : Options) (f : File σ)
    (hname : o.SheetName = "") (h0 : 0 ≤ o.SheetIndex)
    (hk : o.SheetIndex < (f.Sheets.length : Int)) :
    ∃ s, f.Sheets.get? o.SheetIndex.toNat = some s ∧ setSheet o f = .ret s none := by
  have hlt : o.SheetIndex.toNat < f.Sheets.length := by omega
  refine ⟨f.Sheets.get ⟨_, hlt⟩, List.get?_eq_get hlt, ?_⟩
  have hne : ¬ ((f.Sheets.length : Int) = 0) := by omega
  have hge : ¬ (o.SheetIndex ≥ (f.Sheets.length : Int)) := by omega
  simp only [setSheet, hname, ne_eq, not_true_eq_false, if_false, hne, hge, index, h0, if_true,
    List.get?_eq_get hlt]

/-- Supporting lemma: with no sheet name, an empty workbook or an index of at least the
number of sheets gives an error and the nil sheet. -/
theorem setSheet_index_too_large {σ : Type} (o : Options) (f : File σ)
    (hname : o.SheetName = "") (hk : (f.Sheets.length : Int) ≤ o.SheetIndex ∨ f.Sheets = []) :
    ∃ msg, setSheet o f = .ret none (some msg) := by
  by_cases hz : (f.Sheets.length : Int) = 0
  · have h : setSheet o f = .ret none (some "this XLSX file contains no sheets") := by
      simp only [setSheet, hname, ne_eq, not_true_eq_false, if_false, hz, if_true]
    exact ⟨_, h⟩
  · have hge : o.SheetIndex ≥ (f.Sheets.length : Int) := by
      rcases hk with hk | hk
      · exact hk
      · rw [hk] at hz; exact absurd rfl hz
    have h : setSheet o f = .ret none (some ("no sheet " ++ fmtD o.SheetIndex
        ++ " available, please select a sheet between 0 and "
        ++ fmtD (wrapInt ((f.Sheets.length : Int) - 1)))) := by
      simp only [setSheet, hname, ne_eq, not_true_eq_false, if_false, hz, hge, if_true]
    exact ⟨_, h⟩

/-- Claim C3, at a negative index: on a workbook with one sheet, no sheet name and
`SheetIndex = -1`, `setSheet` neither returns an error nor a sheet: the index expression
`xlFile.Sheets[-1]` panics, since only the upper bound of the index is checked. -/
theorem setSheet_negative_index_panics :
    ({ defaultOptions with SheetIndex := -1 } : Options).inRange ∧
    setSheet { defaultOptions with SheetIndex := -1 }
      ({ Sheet := fun _ => none, Sheets := [some "sheet0"] } : File String) = .panic := by
  decide

/-- Claim C4: with a non-empty `SheetName`, `setSheet` returns the sheet pointer the
workbook maps to that name with a nil error when the name is a key of the map, returns the
nil sheet and the error `no sheet named "<name>" available` when it is not, and the result is
the same for every value of `SheetIndex`. -/
theorem setSheet_by_name {σ : Type} (o : Options) (f : File σ) (hname : o.SheetName ≠ "") :
    (∀ s, f.Sheet o.SheetName = some s → setSheet o f = .ret s none) ∧
    (f.Sheet o.SheetName = none →
      setSheet o f = .ret none (some ("no sheet named \"" ++ o.SheetName ++ "\" available"))) ∧
    (∀ i : Int, setSheet { o with SheetIndex := i } f = setSheet o f) := by
  refine ⟨?_, ?_, ?_⟩
  · intro s hs
    simp only [setSheet, hname, ne_eq, not_false_eq_true, if_true, hs]
  · intro hs
    simp only [setSheet, hname, ne_eq, not_false_eq_true, if_true, hs]
  · intro i
    simp only [setSheet, hname, ne_eq, not_false_eq_true, if_true]

/-- Witness for claim C4: sheet name `Data` with the out-of-range index 7, on a workbook
whose only sheet is named `Data`. -/
theorem setSheet_by_name_witness :
    setSheet { defaultOptions with SheetName := "Data", SheetIndex := 7 }
      ({ Sheet := fun name => if name = "Data" then some (some 42) else none,
         Sheets := [some 42] } : File Nat) = .ret (some 42) none :=
  (setSheet_by_name { defaultOptions with SheetName := "Data", SheetIndex := 7 }
    ({ Sheet := fun name => if name = "Data" then some (some 42) else none,
       Sheets := [some 42] } : File Nat) (by decide)).1 (some 42) (by decide)

/-! ## CSV output -/

/-- Claim C8: `outputCsv` hands to the CSV writer, after what it already received, one
record per non-nil row, in row order, whose fields are the strings of the cells of the row
in cell order; a nil row adds nothing. -/
theorem outputCsv_records {κ : Type} (cellString : κ → String)
    (csvWriter : List (List String)) (rows : List (Ptr (Row κ))) :
    outputCsv cellString csvWriter rows
      = csvWriter ++ rows.filterMap (fun row => row.map (fun r => r.Cells.map cellString)) := by
  unfold outputCsv
  induction rows generalizing csvWriter with
  | nil => simp
  | cons row rows ih =>
    rw [List.foldl_cons, ih]
    cases row with
    | none => simp
    | some r => simp [record_foldl]

/-- Claim C7, with an output file: on a workbook with one sheet of one row and
`OutputFile = "out.csv"`, where `os.Create` succeeds, the writer `main` hands to the CSV
encoder is the nil writer and not the created file: the file handle is bound to a variable
local to the `if` block. -/
theorem main_output_file_writer_is_nil :
    main { defaultOptions with OutputFile := "out.csv" } id
      (.ok { Sheet := fun _ => none, Sheets := [some { Rows := [some { Cells := ["a", "b"] }] }] })
      osCreateOk = .csv none [["a", "b"]] := by
  decide

/-! ## Row selection -/

/-- Header slice `sheet.Rows[h:h+1]` of the source for a header index in range. -/
theorem slice_header {α : Type} (xs : List α) (h : Int) (h0 : -1 < h)
    (h1 : h < (xs.length : Int)) (hn : (xs.length : Int) ≤ intMax) :
    slice xs h (wrapInt (h + 1)) = some (xs.get? h.toNat).toList := by
  rw [wrapInt_of_isInt (h + 1) ⟨by unfold intMin; omega, by omega⟩]
  exact slice_one xs h (by omega) h1

/-- The start/limit slice with its optional header: for a start line and a header line
inside the sheet, a limit of at least 0 and no overflow of `StartLine + Limit`, `setRows`
returns a nil error and the header row (when `HeaderLine` is above -1) followed by the rows
from `StartLine` up to the end line, which is the number of rows for `Limit = 0` and the
smaller of `StartLine + Limit` and the number of rows otherwise. -/
theorem setRows_slice {ρ : Type} (o : Options) (sheet : Sheet ρ)
    (hS0 : 0 ≤ o.StartLine) (hSn : o.StartLine < (sheet.Rows.length : Int))
    (hL : 0 ≤ o.Limit) (hov : o.StartLine + o.Limit ≤ intMax)
    (hH : o.HeaderLine < (sheet.Rows.length : Int))
    (hn : (sheet.Rows.length : Int) ≤ intMax) :
    (setRows o (some sheet)).2 =
      .ret ((if o.HeaderLine > -1 then (sheet.Rows.get? o.HeaderLine.toNat).toList else [])
          ++ (sheet.Rows.drop o.StartLine.toNat).take
              ((if o.Limit = 0 then (sheet.Rows.length : Int)
                else min (o.StartLine + o.Limit) (sheet.Rows.length : Int))
                - o.StartLine).toNat) none := by
  have hn0 : ¬ ((sheet.Rows.length : Int) = 0) := by omega
  have hSn1 : ¬ (o.StartLine ≥ (sheet.Rows.length : Int)) := by omega
  have hS1 : o.StartLine > -1 := by omega
  have hw : wrapInt (o.StartLine + o.Limit) = o.StartLine + o.Limit :=
    wrapInt_of_isInt _ ⟨by unfold intMin; omega, hov⟩
  have hH1 : ¬ (o.HeaderLine ≥ (sheet.Rows.length : Int)) := by omega
  by_cases hL0 : o.Limit = 0
  · have hs := slice_eq_some sheet.Rows o.StartLine sheet.Rows.length hS0 (by omega) (by omega)
    by_cases hHd : -1 < o.HeaderLine
    · have hh := slice_header sheet.Rows o.HeaderLine hHd hH hn
      simp only [setRows, hS1, hn0, hSn1, hL0, if_true, if_false, hH1, hw, lt_self_iff_false,
        gt_iff_lt, true_or, hs, hHd, hh]
    · simp only [setRows, hS1, hn0, hSn1, hL0, if_true, if_false, hH1, hw, lt_self_iff_false,
        gt_iff_lt, true_or, hs, hHd, List.nil_append]
  · have hLp : o.Limit > 0 := by omega
    by_cases hgt : (sheet.Rows.length : Int) < o.StartLine + o.Limit
    · have hs := slice_eq_some sheet.Rows o.StartLine sheet.Rows.length hS0 (by omega) (by omega)
      have hmin : min (o.StartLine + o.Limit) (sheet.Rows.length : Int) = sheet.Rows.length :=
        min_eq_right (by omega)
      by_cases hHd : -1 < o.HeaderLine
      · have hh := slice_header sheet.Rows o.HeaderLine hHd hH hn
        simp only [setRows, hS1, hn0, hSn1, hL0, hLp, if_true, if_false, hH1, hw,
          gt_iff_lt, false_or, hgt, hs, hHd, hh, hmin]
      · simp only [setRows, hS1, hn0, hSn1, hL0, hLp, if_true, if_false, hH1, hw,
          gt_iff_lt, false_or, hgt, hs, hHd, hmin, List.nil_append]
    · have hs := slice_eq_some sheet.Rows o.StartLine (o.StartLine + o.Limit) hS0 (by omega)
        (by omega)
      have hmin : min (o.StartLine + o.Limit) (sheet.Rows.length : Int)
          = o.StartLine + o.Limit := min_eq_left (by omega)
      by_cases hHd : -1 < o.HeaderLine
      · have hh := slice_header sheet.Rows o.HeaderLine hHd hH hn
        simp only [setRows, hS1, hn0, hSn1, hL0, hLp, if_true, if_false, hH1, hw,
          gt_iff_lt, false_or, hgt, hs, hHd, hh, hmin]
      · simp only [setRows, hS1, hn0, hSn1, hL0, hLp, if_true, if_false, hH1, hw,
          gt_iff_lt, false_or, hgt, hs, hHd, hmin, List.nil_append]

/-- Value of `options.EndLine` after `setRows` took the partial-read path past its two
checks: `StartLine + Limit` (wrapped) when `Limit` is positive and the old value otherwise,
replaced by the number of rows when `Limit` is zero or the value exceeds that number. -/
theorem setRows_endLine {ρ : Type} (o : Options) (sheet : Sheet ρ)
    (hS : o.StartLine > -1) (hSn : o.StartLine < (sheet.Rows.length : Int)) :
    (setRows o (some sheet)).1.EndLine =
      if o.Limit = 0
          ∨ (if o.Limit > 0 then wrapInt (o.StartLine + o.Limit) else o.EndLine)
              > (sheet.Rows.length : Int)
        then (sheet.Rows.length : Int)
        else (if o.Limit > 0 then wrapInt (o.StartLine + o.Limit) else o.EndLine) := by
  have hn0 : ¬ ((sheet.Rows.length : Int) = 0) := by omega
  have hSn1 : ¬ (o.StartLine ≥ (sheet.Rows.length : Int)) := by omega
  simp only [setRows, hS, hn0, hSn1, if_true, if_false]
  by_cases hLp : o.Limit > 0 <;>
  by_cases hc : (o.Limit = 0
          ∨ (if o.Limit > 0 then wrapInt (o.StartLine + o.Limit) else o.EndLine)
              > (sheet.Rows.length : Int))
  all_goals simp only [hLp, if_true, if_false] at hc
  all_goals simp only [hLp, hc, if_true, if_false]
  all_goals (repeat' split)
  all_goals rfl

/-- Result of `setRows` on the partial-read path past its two checks, in terms of the
value `EndLine` has after the call. -/
theorem setRows_result {ρ : Type} (o : Options) (sheet : Sheet ρ)
    (hS : o.StartLine > -1) (hSn : o.StartLine < (sheet.Rows.length : Int)) :
    (setRows o (some sheet)).2 =
      match slice sheet.Rows o.StartLine (setRows o (some sheet)).1.EndLine with
      | none => .panic
      | some rows =>
        if o.HeaderLine > -1 then
          if o.HeaderLine ≥ (sheet.Rows.length : Int) then
            .ret rows (some ("no row " ++ fmtD o.HeaderLine
              ++ " available, please select a row between 0 and "
              ++ fmtD (wrapInt ((sheet.Rows.length : Int) - 1))))
          else
            match slice sheet.Rows o.HeaderLine (wrapInt (o.HeaderLine + 1)) with
            | none => .panic
            | some header => .ret (header ++ rows) none
        else .ret rows none := by
  rw [setRows_endLine o sheet hS hSn]
  have hn0 : ¬ ((sheet.Rows.length : Int) = 0) := by omega
  have hSn1 : ¬ (o.StartLine ≥ (sheet.Rows.length : Int)) := by omega
  simp only [setRows, hS, hn0, hSn1, if_true, if_false]
  by_cases hLp : o.Limit > 0 <;>
  by_cases hc : (o.Limit = 0
          ∨ (if o.Limit > 0 then wrapInt (o.StartLine + o.Limit) else o.EndLine)
              > (sheet.Rows.length : Int))
  all_goals simp only [hLp, if_true, if_false] at hc
  all_goals simp only [hLp, hc, if_true, if_false]
  all_goals (repeat' split)
  all_goals rfl

theorem slice_bounds {α : Type} (xs : List α) (lo hi : Int) (ys : List α)
    (h : slice xs lo hi = some ys) : 0 ≤ lo ∧ lo ≤ hi ∧ hi ≤ (xs.length : Int) := by
  unfold slice at h
  split at h
  · assumption
  · exact absurd h (by simp)

/-- A header slice `sheet.Rows[h:h+1]` that does not panic is the row at index `h`. -/
theorem slice_header_inv {α : Type} (xs : List α) (h : Int) (ys : List α)
    (hs : slice xs h (wrapInt (h + 1)) = some ys) : ys = (xs.get? h.toNat).toList := by
  obtain ⟨h0, h1, h2⟩ := slice_bounds _ _ _ _ hs
  have hw : wrapInt (h + 1) = h + 1 := by
    unfold wrapInt at h1 ⊢
    omega
  rw [hw] at hs h2
  rw [slice_one xs h h0 (by omega)] at hs
  exact (Option.some.inj hs).symm

/-- On the partial-read path a start line at or past the number of rows is an error with
no rows: the empty-sheet error on a sheet without rows, the row-index error otherwise. -/
theorem setRows_start_out_of_range {ρ : Type} (o : Options) (sheet : Sheet ρ)
    (hS : o.StartLine > -1) (hSn : o.StartLine ≥ (sheet.Rows.length : Int)) :
    ∃ msg, (setRows o (some sheet)).2 = .ret [] (some msg) := by
  by_cases hn0 : (sheet.Rows.length : Int) = 0
  · have h : (setRows o (some sheet)).2 = .ret [] (some "this worksheet contains no rows") := by
      simp only [setRows, hS, hn0, if_true]
    exact ⟨_, h⟩
  · have h : (setRows o (some sheet)).2 = .ret [] (some ("no row " ++ fmtD o.HeaderLine
        ++ " available, please select a row between 0 and "
        ++ fmtD (wrapInt ((sheet.Rows.length : Int) - 1)))) := by
      simp only [setRows, hS, hn0, hSn, if_true, if_false]
    exact ⟨_, h⟩

/-- With a non-negative limit and no overflow of `StartLine + Limit`, the value of
`EndLine` after the call lies between `StartLine` and the number of rows. -/
theorem setRows_endLine_bounds {ρ : Type} (o : Options) (sheet : Sheet ρ)
    (hS : 0 ≤ o.StartLine) (hSn : o.StartLine < (sheet.Rows.length : Int))
    (hL : 0 ≤ o.Limit) (hov : o.StartLine + o.Limit ≤ intMax) :
    o.StartLine ≤ (setRows o (some sheet)).1.EndLine
      ∧ (setRows o (some sheet)).1.EndLine ≤ (sheet.Rows.length : Int) := by
  rw [setRows_endLine o sheet (by omega) hSn]
  have hw : wrapInt (o.StartLine + o.Limit) = o.StartLine + o.Limit :=
    wrapInt_of_isInt _ ⟨by unfold intMin; omega, hov⟩
  rw [hw]
  by_cases hL0 : o.Limit = 0
  · simp only [hL0, true_or, if_true]
    omega
  · have hLp : o.Limit > 0 := by omega
    simp only [hL0, hLp, false_or, if_true]
    split <;> omega

/-- Whole-sheet path: with `StartLine` at most -1 the option record is left as it was and
all rows of the sheet are returned with a nil error, whatever the other options are. -/
theorem setRows_whole_sheet {ρ : Type} (o : Options) (sheet : Sheet ρ)
    (hS : o.StartLine ≤ -1) : setRows o (some sheet) = (o, .ret sheet.Rows none) := by
  have h : ¬ (o.StartLine > -1) := by omega
  simp only [setRows, h, if_false]

/-- Claim C1, at an overflowing limit: on a sheet of two rows with `StartLine = 1` and
`Limit = 9223372036854775807` (both values of `int`), `StartLine + Limit` wraps around to
the smallest `int`, the check `EndLine > numRows` does not fire, and the slice
`sheet.Rows[1:-9223372036854775808]` panics: no rows and no error are returned. -/
theorem setRows_limit_overflow_panics :
    ({ defaultOptions with StartLine := 1, Limit := 9223372036854775807 } : Options).inRange ∧
    setRows { defaultOptions with StartLine := 1, Limit := 9223372036854775807 }
        (some ({ Rows := ["r0", "r1"] } : Sheet String))
      = ({ defaultOptions with
            StartLine := 1, Limit := 9223372036854775807, EndLine := -9223372036854775808 },
         .panic) := by
  decide

/-- Claim C2, as stated, fails: with `Limit = 1` and the default `StartLine = -1` the
three rows of the sheet are all returned, no header row among them. -/
theorem setRows_limit_ignored_without_startLine :
    ({ defaultOptions with Limit := 1 } : Options).Limit > 0 ∧
    ({ defaultOptions with Limit := 1 } : Options).HeaderLine = -1 ∧
    (setRows { defaultOptions with Limit := 1 }
        (some ({ Rows := ["r0", "r1", "r2"] } : Sheet String))).2
      = .ret ["r0", "r1", "r2"] none ∧
    ¬ ((["r0", "r1", "r2"].length : Int) ≤ ({ defaultOptions with Limit := 1 } : Options).Limit) := by
  decide

/-- Rows returned with a nil error under a positive limit and a start line of at least 0:
the injected header row (the row at index `HeaderLine`, which exists, when `HeaderLine` is
above -1, and nothing otherwise) followed by at most `Limit` data rows. -/
theorem setRows_data_rows_le_limit {ρ : Type} (o : Options) (sheet : Sheet ρ) (rows : List ρ)
    (hlim : o.Limit > 0) (hstart : o.StartLine ≥ 0)
    (hok : (setRows o (some sheet)).2 = .ret rows none) :
    ∃ data : List ρ,
      rows = (if o.HeaderLine > -1 then (sheet.Rows.get? o.HeaderLine.toNat).toList else [])
              ++ data
      ∧ (data.length : Int) ≤ o.Limit
      ∧ (o.HeaderLine > -1 → o.HeaderLine < (sheet.Rows.length : Int)) := by
  have hS : o.StartLine > -1 := by omega
  by_cases hSn : o.StartLine < (sheet.Rows.length : Int)
  · rw [setRows_result o sheet hS hSn] at hok
    have hE := setRows_endLine o sheet hS hSn
    generalize (setRows o (some sheet)).1.EndLine = E at hok hE
    cases hsl : slice sheet.Rows o.StartLine E with
    | none =>
      rw [hsl] at hok
      exact absurd hok (by simp)
    | some data =>
      rw [hsl] at hok
      have hlen := slice_length _ _ _ _ hsl
      have hcap : (data.length : Int) ≤ o.Limit := by
        simp only [hlim, if_true] at hE
        unfold wrapInt at hE
        split at hE <;> omega
      have hHlt : o.HeaderLine > -1 → o.HeaderLine < (sheet.Rows.length : Int) := by
        intro hHd
        by_contra hcon
        have hHn : o.HeaderLine ≥ (sheet.Rows.length : Int) := by omega
        simp only [hHd, hHn, if_true] at hok
        exact absurd hok (by simp)
      refine ⟨data, ?_, hcap, hHlt⟩
      by_cases hHd : o.HeaderLine > -1
      · simp only [hHd, if_true] at hok ⊢
        by_cases hHn : o.HeaderLine ≥ (sheet.Rows.length : Int)
        · simp only [hHn, if_true] at hok
          exact absurd hok (by simp)
        · simp only [hHn, if_false] at hok
          cases hh : slice sheet.Rows o.HeaderLine (wrapInt (o.HeaderLine + 1)) with
          | none =>
            rw [hh] at hok
            exact absurd hok (by simp)
          | some header =>
            rw [hh] at hok
            rw [← slice_header_inv _ _ _ hh]
            injection hok with h1 _
            exact h1.symm
      · simp only [hHd, if_false] at hok ⊢
        injection hok with h1 _
        simpa using h1.symm
  · obtain ⟨msg, hmsg⟩ := setRows_start_out_of_range o sheet hS (by omega)
    rw [hmsg] at hok
    exact absurd hok (by simp)

/-- Claim C2, amended: when `Limit` is positive, `StartLine` is at least 0 and `setRows`
returns rows with a nil error, the rows are the injected header row (the row at index
`HeaderLine`, which exists, when `HeaderLine` is above -1, and nothing otherwise) followed
by at most `Limit` data rows; and for every option record
with `StartLine` at most -1, `setRows` returns all rows of the sheet with a nil error,
whatever `Limit` is. -/
theorem setRows_limit_caps {ρ : Type} (o : Options) (sheet : Sheet ρ) :
    (∀ rows : List ρ, o.Limit > 0 → o.StartLine ≥ 0 →
      (setRows o (some sheet)).2 = .ret rows none →
      ∃ data : List ρ,
        rows = (if o.HeaderLine > -1 then (sheet.Rows.get? o.HeaderLine.toNat).toList else [])
                ++ data
        ∧ (data.length : Int) ≤ o.Limit
        ∧ (o.HeaderLine > -1 → o.HeaderLine < (sheet.Rows.length : Int))) ∧
    (o.StartLine ≤ -1 → setRows o (some sheet) = (o, .ret sheet.Rows none)) := by
  constructor
  · intro rows hlim hstart hok
    exact setRows_data_rows_le_limit o sheet rows hlim hstart hok
  · intro hS
    exact setRows_whole_sheet o sheet hS

/-- Witness for claim C2, amended: `StartLine = 1`, `Limit = 2`, `HeaderLine = 0` on a
sheet of four rows for the cap, and `StartLine = -7`, `Limit = 1` on a sheet of three rows
for the whole-sheet path. -/
theorem setRows_limit_caps_witness :
    (∃ data : List String, ["r0", "r1", "r2"] = ["r0"] ++ data ∧ (data.length : Int) ≤ 2
      ∧ ((0 : Int) > -1 → (0 : Int) < ((["r0", "r1", "r2", "r3"].length : Nat) : Int))) ∧
    setRows { defaultOptions with StartLine := -7, Limit := 1 }
        (some ({ Rows := ["r0", "r1", "r2"] } : Sheet String))
      = ({ defaultOptions with StartLine := -7, Limit := 1 }, .ret ["r0", "r1", "r2"] none) :=
  ⟨(setRows_limit_caps { defaultOptions with StartLine := 1, Limit := 2, HeaderLine := 0 }
      ({ Rows := ["r0", "r1", "r2", "r3"] } : Sheet String)).1 ["r0", "r1", "r2"]
      (by decide) (by decide) (by decide),
   (setRows_limit_caps { defaultOptions with StartLine := -7, Limit := 1 }
      ({ Rows := ["r0", "r1", "r2"] } : Sheet String)).2 (by decide)⟩

/-- Claim C5, as stated, fails: with `HeaderLine = 5` on a sheet of two rows and the
default `StartLine = -1`, the header line is not looked at and the whole sheet is returned
with a nil error. -/
theorem setRows_headerLine_ignored_without_startLine :
    ({ defaultOptions with HeaderLine := 5 } : Options).HeaderLine
      ≥ ((({ Rows := ["r0", "r1"] } : Sheet String).Rows.length : Nat) : Int) ∧
    (setRows { defaultOptions with HeaderLine := 5 }
        (some ({ Rows := ["r0", "r1"] } : Sheet String))).2
      = .ret ["r0", "r1"] none := by
  decide

/-- Claim C5, amended: `setRows` returns an error whenever `StartLine` is not below the
number of rows; with `StartLine` at least 0 and `HeaderLine` not below the number of rows it
returns an error unless it panics; and for every option record with `StartLine` at most -1
it returns all rows of the sheet with a nil error, whatever `HeaderLine` is. -/
theorem setRows_row_index_out_of_range {ρ : Type} (o : Options) (sheet : Sheet ρ) :
    (o.StartLine ≥ (sheet.Rows.length : Int) →
      ∃ rows msg, (setRows o (some sheet)).2 = .ret rows (some msg)) ∧
    (o.StartLine ≥ 0 → o.HeaderLine ≥ (sheet.Rows.length : Int) →
      (setRows o (some sheet)).2 ≠ .panic →
      ∃ rows msg, (setRows o (some sheet)).2 = .ret rows (some msg)) ∧
    (o.StartLine ≤ -1 → setRows o (some sheet) = (o, .ret sheet.Rows none)) := by
  refine ⟨?_, ?_, ?_⟩
  · intro hSn
    obtain ⟨msg, hmsg⟩ := setRows_start_out_of_range o sheet (by omega) hSn
    exact ⟨_, _, hmsg⟩
  · intro hstart hH hnp
    have hS : o.StartLine > -1 := by omega
    by_cases hSn : o.StartLine < (sheet.Rows.length : Int)
    · have hHd : o.HeaderLine > -1 := by omega
      rw [setRows_result o sheet hS hSn] at hnp ⊢
      generalize (setRows o (some sheet)).1.EndLine = E at hnp ⊢
      cases hsl : slice sheet.Rows o.StartLine E with
      | none =>
        rw [hsl] at hnp
        exact absurd rfl hnp
      | some rows =>
        simp only [hHd, hH, if_true]
        exact ⟨_, _, rfl⟩
    · obtain ⟨msg, hmsg⟩ := setRows_start_out_of_range o sheet hS (by omega)
      exact ⟨_, _, hmsg⟩
  · intro hS
    exact setRows_whole_sheet o sheet hS

/-- Witness for claim C5, amended: `StartLine = 9` on a sheet of two rows for the start
line; `StartLine = 0`, `Limit = -1` and `HeaderLine = 5` on the same sheet for the header
line; `StartLine = -3`, `HeaderLine = 5` on the same sheet for the whole-sheet path. -/
theorem setRows_row_index_out_of_range_witness :
    (∃ rows msg, (setRows { defaultOptions with StartLine := 9 }
        (some ({ Rows := ["r0", "r1"] } : Sheet String))).2 = .ret rows (some msg)) ∧
    (∃ rows msg, (setRows { defaultOptions with StartLine := 0, Limit := -1, HeaderLine := 5 }
        (some ({ Rows := ["r0", "r1"] } : Sheet String))).2 = .ret rows (some msg)) ∧
    setRows { defaultOptions with StartLine := -3, HeaderLine := 5 }
        (some ({ Rows := ["r0", "r1"] } : Sheet String))
      = ({ defaultOptions with StartLine := -3, HeaderLine := 5 }, .ret ["r0", "r1"] none) :=
  ⟨(setRows_row_index_out_of_range { defaultOptions with StartLine := 9 }
      ({ Rows := ["r0", "r1"] } : Sheet String)).1 (by decide),
   (setRows_row_index_out_of_range
      { defaultOptions with StartLine := 0, Limit := -1, HeaderLine := 5 }
      ({ Rows := ["r0", "r1"] } : Sheet String)).2.1 (by decide) (by decide) (by decide),
   (setRows_row_index_out_of_range { defaultOptions with StartLine := -3, HeaderLine := 5 }
      ({ Rows := ["r0", "r1"] } : Sheet String)).2.2 (by decide)⟩

/-- Claim C6, as stated, fails: with the default options (`StartLine = -1`) a sheet
without rows gives the empty row sequence and a nil error. -/
theorem setRows_empty_sheet_default_options :
    (setRows defaultOptions (some ({ Rows := [] } : Sheet String))).2 = .ret [] none := by
  decide

/-- Claim C6, amended: on a sheet without rows, `setRows` returns no rows and the error
`this worksheet contains no rows` for every option record with `StartLine` at least 0, and
returns the empty row sequence with a nil error for every option record with `StartLine` at
most -1. -/
theorem setRows_empty_sheet {ρ : Type} (o : Options) (sheet : Sheet ρ)
    (hempty : sheet.Rows.length = 0) :
    (o.StartLine ≥ 0 →
      (setRows o (some sheet)).2 = .ret [] (some "this worksheet contains no rows")) ∧
    (o.StartLine ≤ -1 → (setRows o (some sheet)).2 = .ret [] none) := by
  constructor
  · intro hstart
    have hS : o.StartLine > -1 := by omega
    simp only [setRows, hS, hempty, if_true, Nat.cast_zero]
  · intro hS
    rw [setRows_whole_sheet o sheet hS, List.length_eq_zero.mp hempty]

/-- Witness for claim C6, amended: `StartLine = 0` and `StartLine = -2` on the sheet
without rows. -/
theorem setRows_empty_sheet_witness :
    (setRows { defaultOptions with StartLine := 0 } (some ({ Rows := [] } : Sheet String))).2
      = .ret [] (some "this worksheet contains no rows") ∧
    (setRows { defaultOptions with StartLine := -2 } (some ({ Rows := [] } : Sheet String))).2
      = .ret [] none :=
  ⟨(setRows_empty_sheet { defaultOptions with StartLine := 0 }
      ({ Rows := [] } : Sheet String) rfl).1 (by decide),
   (setRows_empty_sheet { defaultOptions with StartLine := -2 }
      ({ Rows := [] } : Sheet String) rfl).2 (by decide)⟩

/-- The error for a start line past the last row names `HeaderLine`, whatever the start
line is. -/
theorem setRows_startLine_error_message {ρ : Type} (o : Options) (sheet : Sheet ρ)
    (hS : o.StartLine > -1) (hn0 : sheet.Rows.length ≠ 0)
    (hSn : o.StartLine ≥ (sheet.Rows.length : Int)) :
    (setRows o (some sheet)).2 = .ret [] (some ("no row " ++ fmtD o.HeaderLine
        ++ " available, please select a row between 0 and "
        ++ fmtD (wrapInt ((sheet.Rows.length : Int) - 1)))) := by
  have hn1 : ¬ ((sheet.Rows.length : Int) = 0) := by omega
  simp only [setRows, hS, hn1, hSn, if_true, if_false]

/-- The error for a header line past the last row names `HeaderLine` (start line in range,
`Limit` at least 0, no overflow of `StartLine + Limit`). -/
theorem setRows_headerLine_error_message {ρ : Type} (o : Options) (sheet : Sheet ρ)
    (hS : 0 ≤ o.StartLine) (hSn : o.StartLine < (sheet.Rows.length : Int))
    (hL : 0 ≤ o.Limit) (hov : o.StartLine + o.Limit ≤ intMax)
    (hH : o.HeaderLine ≥ (sheet.Rows.length : Int)) :
    ∃ rows, (setRows o (some sheet)).2 = .ret rows (some ("no row " ++ fmtD o.HeaderLine
        ++ " available, please select a row between 0 and "
        ++ fmtD (wrapInt ((sheet.Rows.length : Int) - 1)))) := by
  obtain ⟨hlo, hhi⟩ := setRows_endLine_bounds o sheet hS hSn hL hov
  rw [setRows_result o sheet (by omega) hSn]
  rw [slice_eq_some sheet.Rows o.StartLine _ hS hlo hhi]
  have hHd : o.HeaderLine > -1 := by omega
  simp only [hHd, hH, if_true]
  exact ⟨_, rfl⟩

/-- Claim C9, at a start line past the last row: with `StartLine = 5` and `HeaderLine = 0`
on a sheet of two rows, the error names row 0, the header line, and not row 5, the start
line that was requested. -/
theorem setRows_startLine_error_names_headerLine :
    (setRows { defaultOptions with StartLine := 5, HeaderLine := 0 }
        (some ({ Rows := ["r0", "r1"] } : Sheet String))).2
      = .ret [] (some "no row 0 available, please select a row between 0 and 1") ∧
    (setRows { defaultOptions with StartLine := 5, HeaderLine := 0 }
        (some ({ Rows := ["r0", "r1"] } : Sheet String))).2
      ≠ .ret [] (some "no row 5 available, please select a row between 0 and 1") := by
  decide

/-- Claim C10, at a negative limit: on a sheet of two rows with `StartLine = 1` and
`Limit = -1`, `EndLine` keeps its initial value 0, below `StartLine`, and the slice
`sheet.Rows[1:0]` panics: neither rows nor an error are returned. -/
theorem setRows_negative_limit_panics :
    ({ defaultOptions with StartLine := 1, Limit := -1 } : Options).inRange ∧
    setRows { defaultOptions with StartLine := 1, Limit := -1 }
        (some ({ Rows := ["r0", "r1"] } : Sheet String))
      = ({ defaultOptions with StartLine := 1, Limit := -1, EndLine := 0 }, .panic) ∧
    ¬ (({ defaultOptions with StartLine := 1, Limit := -1 } : Options).StartLine
        ≤ (setRows { defaultOptions with StartLine := 1, Limit := -1 }
            (some ({ Rows := ["r0", "r1"] } : Sheet String))).1.EndLine) := by
  decide

/-! ## Extent of the panics -/

/-- Every negative limit with a start line between 1 and the last row panics, when
`EndLine` starts at 0. -/
theorem setRows_panic_of_negative_limit {ρ : Type} (o : Options) (sheet : Sheet ρ)
    (hS : 0 < o.StartLine) (hSn : o.StartLine < (sheet.Rows.length : Int))
    (hL : o.Limit < 0) (hE : o.EndLine = 0) :
    (setRows o (some sheet)).2 = .panic := by
  have hEnd := setRows_endLine o sheet (by omega) hSn
  have hL0 : ¬ (o.Limit = 0) := by omega
  have hLp : ¬ (o.Limit > 0) := by omega
  have hgt : ¬ ((0 : Int) > (sheet.Rows.length : Int)) := by omega
  simp only [hL0, hLp, hE, hgt, if_false, false_or] at hEnd
  rw [setRows_result o sheet (by omega) hSn, hEnd, slice_eq_none _ _ _ hS]

/-- Every positive limit whose sum with an in-range start line exceeds the largest `int`
panics. -/
theorem setRows_panic_of_overflow {ρ : Type} (o : Options) (sheet : Sheet ρ)
    (hr : o.inRange) (hS : 0 ≤ o.StartLine) (hSn : o.StartLine < (sheet.Rows.length : Int))
    (hL : o.Limit > 0) (hov : o.StartLine + o.Limit > intMax) :
    (setRows o (some sheet)).2 = .panic := by
  obtain ⟨-, -, ⟨-, hSmax⟩, -, ⟨-, hLmax⟩⟩ := hr
  unfold intMax at hov hSmax hLmax
  have hw : wrapInt (o.StartLine + o.Limit) < 0 := by
    unfold wrapInt
    omega
  have hEnd := setRows_endLine o sheet (by omega) hSn
  have hL0 : ¬ (o.Limit = 0) := by omega
  have hgt : ¬ (wrapInt (o.StartLine + o.Limit) > (sheet.Rows.length : Int)) := by omega
  simp only [hL0, hL, hgt, if_true, if_false, false_or] at hEnd
  rw [setRows_result o sheet (by omega) hSn, hEnd, slice_eq_none _ _ _ (by omega)]

/-- Every negative sheet index panics on a workbook with sheets, when no sheet name is
given. -/
theorem setSheet_panic_of_negative_index {σ : Type} (o : Options) (f : File σ)
    (hname : o.SheetName = "") (hk : f.Sheets.length ≠ 0) (hneg : o.SheetIndex < 0) :
    setSheet o f = .panic := by
  have hz : ¬ ((f.Sheets.length : Int) = 0) := by omega
  have hge : ¬ (o.SheetIndex ≥ (f.Sheets.length : Int)) := by omega
  have h0 : ¬ (0 ≤ o.SheetIndex) := by omega
  simp only [setSheet, hname, ne_eq, not_true_eq_false, if_false, hz, hge, index, h0]

/-- The call of `setRows` leaves `OutputFile` as it was. -/
theorem setRows_outputFile {ρ : Type} (o : Options) (sheet : Ptr (Sheet ρ)) :
    (setRows o sheet).1.OutputFile = o.OutputFile := by
  cases sheet with
  | none => rfl
  | some sheet =>
    simp only [setRows]
    repeat' split
    all_goals rfl

/-- With an output file name, the writer handed to the CSV encoder is nil whenever `main`
gets as far as encoding. -/
theorem main_writer_nil_of_output_file {κ : Type} (options : Options)
    (cellString : κ → String) (openFile : Except String (File (Sheet (Ptr (Row κ)))))
    (osCreate : String → Ptr Writer × Option String) (writer : Ptr Writer)
    (records : List (List String)) (hout : options.OutputFile ≠ "")
    (hrun : main options cellString openFile osCreate = .csv writer records) :
    writer = none := by
  unfold main at hrun
  split at hrun
  · exact absurd hrun (by simp)
  · split at hrun
    · exact absurd hrun (by simp)
    · exact absurd hrun (by simp)
    · rename_i sheet _
      split at hrun
      · exact absurd hrun (by simp)
      · exact absurd hrun (by simp)
      · rename_i o2 rows heq
        have ho : o2.OutputFile = options.OutputFile := by
          have h := setRows_outputFile options sheet
          rw [heq] at h
          exact h
        simp only [ho, hout, ne_eq, not_false_eq_true, if_true] at hrun
        split at hrun
        · exact absurd hrun (by simp)
        · injection hrun with h1 _
          exact h1.symm

end XlsxConverter
